import Mathlib

/-!
Verification development for the PdfToolkit repository: a shallow embedding of
the PDF operation engine (`services/pdf_processor.py`), the request validators
(`utils/validators.py`) and the job orchestration routes (`routes/api.py`),
together with theorems settling the specification claims about them.

Modelling conventions:
* A PDF document is its list of pages; a page is an opaque identifier (`Nat`).
* Python dictionaries are association lists; JSON-ish values are `PyVal`.
* Machine-level byte contents are abstracted to sizes (`Nat`) where the code
  only reads sizes; the writer's serialisation is an abstract size function.
* Python exceptions are an explicit `Except` layer; a `try/except Exception`
  block is an explicit catch on that layer.
* `datetime.now().strftime("%Y%m%d_%H%M%S")` is an opaque timestamp string of
  second granularity, passed as a parameter: two calls within the same second
  receive the same string.
-/

deriving instance DecidableEq for Except

namespace PdfToolkit

/-- A page of a PDF document, abstracted to an identifier. -/
abbrev Page := Nat

/-- A PDF document: its ordered list of pages. -/
abbrev PdfDoc := List Page

/-- The uploads zone of the file store: named PDF documents. -/
abbrev FileStore := List (String × PdfDoc)

/-- Python `range(a, b)` over integers, as an ordered list. -/
def pyRange (a b : Int) : List Int :=
  (List.range (b - a).toNat).map (fun i : Nat => a + (i : Int))

/-- Python sequence indexing `l[i]` (negative indices count from the end);
`none` models the `IndexError` case. -/
def pyGet (l : List α) (i : Int) : Option α :=
  if 0 ≤ i then l[i.toNat]?
  else if 0 ≤ (l.length : Int) + i then l[((l.length : Int) + i).toNat]?
  else Option.none

/-- Model of `os.path.splitext(s)[0]` for a path with no directory separators: the root
obtained by cutting at the last dot, provided some earlier character of the
name is not a dot (so ".bashrc" keeps its name), as CPython implements it. -/
def splitextBase (s : String) : String :=
  let r := s.data.reverse
  match r.dropWhile (fun c => c ≠ '.') with
  | [] => s
  | _ :: before =>
      if before.any (fun c => c ≠ '.') then String.mk before.reverse else s

/-- Python `str.strip()`: drop leading and trailing whitespace. Implemented
over the character list so that it computes by kernel reduction. -/
def pyStrip (s : String) : String :=
  String.mk (((s.data.dropWhile Char.isWhitespace).reverse.dropWhile Char.isWhitespace).reverse)

/-- Python `str.lower()` (ASCII folding, which is all the validator needs). -/
def pyLower (s : String) : String := String.mk (s.data.map Char.toLower)

/-- Python `str.upper()`. -/
def pyUpper (s : String) : String := String.mk (s.data.map Char.toUpper)

/-- Whether `sub` occurs as a contiguous run inside `l`. -/
def hasSubstr [DecidableEq α] (sub : List α) : List α → Bool
  | [] => sub.isEmpty
  | a :: t => sub.isPrefixOf (a :: t) || hasSubstr sub t

/-- Python `str.endswith(suffix)`. -/
def pyEndsWith (s suffix : String) : Bool := suffix.data.isSuffixOf s.data

/-- Errors raised by the engine (`str(e)` of the Python exceptions). -/
inductive PdfError where
  | fileNotFound (name : String)
  | indexError
  | zeroDivision
deriving DecidableEq, Repr

/-- The message `str(e)` carried by an engine exception. -/
def PdfError.message : PdfError → String
  | .fileNotFound name => "File not found: " ++ name
  | .indexError => "list index out of range"
  | .zeroDivision => "division by zero"

/-- A file written to the processed zone: its generated name and content. -/
structure Artifact where
  name : String
  doc : PdfDoc
deriving DecidableEq, Repr

namespace PDFProcessor

/-- Output filename generated by `merge_pdfs`: `merged_{timestamp}.pdf`. -/
def mergeName (timestamp : String) : String :=
  "merged_" ++ timestamp ++ ".pdf"

/-- Output filename generated by `split_pdf` for 0-based page `pageNum`:
`{base_name}_page_{page_num + 1}_{timestamp}.pdf`. -/
def splitName (baseName : String) (pageNum : Int) (timestamp : String) : String :=
  baseName ++ "_page_" ++ toString (pageNum + 1) ++ "_" ++ timestamp ++ ".pdf"

/-- Output filename generated by `compress_pdf`:
`{base_name}_compressed_{timestamp}.pdf`. -/
def compressName (baseName : String) (timestamp : String) : String :=
  baseName ++ "_compressed_" ++ timestamp ++ ".pdf"

/-- Model of `PDFProcessor.merge_pdfs`: reads every listed file from the uploads zone
(raising `FileNotFoundError` on a missing one), appends all their pages to one
writer in the given order, and writes a single artifact with a fresh name. -/
def merge_pdfs (store : FileStore) (file_list : List String) (timestamp : String) :
    Except PdfError Artifact := do
  let docs ← file_list.mapM (fun filename =>
    match store.lookup filename with
    | some d => Except.ok d
    | Option.none => Except.error (PdfError.fileNotFound filename))
  Except.ok (Artifact.mk (mergeName timestamp) docs.flatten)

/-- The optional `pages` argument of `split_pdf`: a dict possibly holding
`start` and `end` (here `stop`, `end` being reserved) integer entries. -/
structure PageRange where
  start : Option Int := Option.none
  stop : Option Int := Option.none
deriving DecidableEq, Repr

/-- Model of `PDFProcessor.split_pdf`: for the requested range (default: the whole
document; `start` 1-based, converted to 0-based; `end` clamped by
`min(end, total_pages)`), writes one single-page artifact per selected page,
named after the 1-based source page number, in ascending order. -/
def split_pdf (store : FileStore) (filename : String) (timestamp : String)
    (page_range : Option PageRange) : Except PdfError (List Artifact) :=
  match store.lookup filename with
  | Option.none => Except.error (PdfError.fileNotFound filename)
  | some doc =>
      let total_pages : Int := doc.length
      let pages_to_split : List Int :=
        match page_range with
        | some pr => pyRange ((pr.start.getD 1) - 1) (min (pr.stop.getD total_pages) total_pages)
        | Option.none => pyRange 0 total_pages
      let base_name := splitextBase filename
      pages_to_split.mapM (fun page_num =>
        match pyGet doc page_num with
        | some pg => Except.ok (Artifact.mk (splitName base_name page_num timestamp) [pg])
        | Option.none => Except.error PdfError.indexError)

/-- The opaque PyPDF2 writer rewrites requested by `compress_pdf`. -/
inductive CompressStep where
  | compress_identical_objects
  | remove_duplicates
deriving DecidableEq, Repr

/-- The sequence of writer rewrites `compress_pdf` applies for a quality level:
`high` applies only `compress_identical_objects`; `medium` additionally
`remove_duplicates`; every other value takes the `low` branch, which applies
the same two rewrites as `medium`. -/
def compressionSteps (quality : String) : List CompressStep :=
  if quality = "high" then [CompressStep.compress_identical_objects]
  else if quality = "medium" then
    [CompressStep.compress_identical_objects, CompressStep.remove_duplicates]
  else
    [CompressStep.compress_identical_objects, CompressStep.remove_duplicates]

/-- Result of `compress_pdf`: the artifact name, the rewrite actually performed
(the copied document and the writer rewrite steps applied to it), and the
reported compression ratio. -/
structure CompressResult where
  outputFilename : String
  rewritten : PdfDoc × List CompressStep
  compression_ratio : ℚ
deriving DecidableEq, Repr

/-- Model of `PDFProcessor.compress_pdf`: copies all pages, applies the quality-selected
writer rewrites, writes the artifact under a fresh name, and reports
`(original_size - compressed_size) / original_size * 100`. Byte sizes are
abstract: `sizeOf_` gives the stored input file's size, `serializedSize` the
size of the written output for a given document and rewrite steps. A zero-size
original raises `ZeroDivisionError`. -/
def compress_pdf (store : FileStore) (sizeOf_ : String → Nat)
    (serializedSize : PdfDoc → List CompressStep → Nat)
    (filename : String) (timestamp : String) (quality : String) :
    Except PdfError CompressResult :=
  match store.lookup filename with
  | Option.none => Except.error (PdfError.fileNotFound filename)
  | some doc =>
      let steps := compressionSteps quality
      let output_filename := compressName (splitextBase filename) timestamp
      let original_size : Nat := sizeOf_ filename
      let compressed_size : Nat := serializedSize doc steps
      if original_size = 0 then Except.error PdfError.zeroDivision
      else
        Except.ok
          (CompressResult.mk output_filename (doc, steps)
            (((original_size : ℚ) - (compressed_size : ℚ)) / (original_size : ℚ) * 100))

end PDFProcessor

/-! ## Python values and exceptions -/

/-- JSON-ish Python values as they arrive in `request.get_json()`. -/
inductive PyVal where
  | str (s : String)
  | int (n : Int)
  | pybool (b : Bool)
  | list (xs : List PyVal)
  | dict (xs : List (String × PyVal))
  | pynone

/-- Model of `isinstance(v, int)` together with the value used in comparisons: Python
`bool` is a subclass of `int` (`True == 1`, `False == 0`). -/
def pyIntVal : PyVal → Option Int
  | PyVal.int n => some n
  | PyVal.pybool b => some (if b then 1 else 0)
  | _ => Option.none

/-- Exceptions the validator bodies can raise (beyond what they catch inline). -/
inductive PyExc where
  | attributeError
  | streamError (msg : String)
deriving DecidableEq, Repr

/-! ## `utils/validators.py` -/

def MAX_FILE_SIZE : Nat := 50 * 1024 * 1024

def MIN_FILE_SIZE : Nat := 1024

/-- An uploaded file object as `validate_pdf_file` observes it: its declared
name, its byte size, whether seeking or reading the stream raises, and the
outcome of handing its bytes to `PdfReader` (`none` models a parse failure
with message `parseErrMsg`). -/
structure FileObj where
  filename : Option String
  size : Nat
  seekRaises : Bool
  readRaises : Bool
  readErrMsg : String
  parsed : Option PdfDoc
  parseErrMsg : String
  encrypted : Bool
deriving DecidableEq, Repr

/-- Result dictionary of `validate_pdf_file`. -/
inductive PdfValidation where
  | valid (size : Nat) (pages : Nat)
  | invalid (error : String)
deriving DecidableEq, Repr

/-- Body of `validate_pdf_file`, inside its outer `try`: the only statement
that can raise out of it is the `file.seek` call (the read/parse block has its
own inner `except` returning an `Invalid PDF file:` record). -/
def validate_pdf_file_body (file : FileObj) : Except PyExc PdfValidation :=
  if (match file.filename with | Option.none => true | some s => s.isEmpty) then
    Except.ok (PdfValidation.invalid "No file provided")
  else
    let fname := file.filename.getD ""
    if ¬ pyEndsWith (pyLower fname) ".pdf" then
      Except.ok (PdfValidation.invalid "File must be a PDF")
    else if file.seekRaises then Except.error (PyExc.streamError "seek failed")
    else if file.size > MAX_FILE_SIZE then
      Except.ok (PdfValidation.invalid "File too large. Maximum size: 50MB")
    else if file.size < MIN_FILE_SIZE then
      Except.ok (PdfValidation.invalid "File too small. Minimum size: 1024B")
    else if file.readRaises then
      Except.ok (PdfValidation.invalid ("Invalid PDF file: " ++ file.readErrMsg))
    else
      match file.parsed with
      | Option.none =>
          Except.ok (PdfValidation.invalid ("Invalid PDF file: " ++ file.parseErrMsg))
      | some doc =>
          if doc.length = 0 then
            Except.ok (PdfValidation.invalid "PDF file contains no pages")
          else Except.ok (PdfValidation.valid file.size doc.length)

/-- Model of `validate_pdf_file`: the body wrapped in its outer
`except Exception: return invalid "File validation failed"`. -/
def validate_pdf_file (file : FileObj) : PdfValidation :=
  match validate_pdf_file_body file with
  | Except.ok r => r
  | Except.error _ => PdfValidation.invalid "File validation failed"

/-- Result dictionary of `validate_operation_params`. -/
inductive OpValidation where
  | valid (data : List (String × PyVal))
  | invalid (error : String)

/-- The `'files' in data` block of `validate_operation_params`: list shape,
non-emptiness, then each element a non-blank string, else early return. -/
def filesCheckStage (data : List (String × PyVal)) (next : Except PyExc OpValidation) :
    Except PyExc OpValidation :=
  match data.lookup "files" with
  | some (PyVal.list xs) =>
      if xs.isEmpty then Except.ok (OpValidation.invalid "Files list cannot be empty")
      else if xs.any (fun w => match w with | PyVal.str s => pyStrip s = "" | _ => true) then
        Except.ok (OpValidation.invalid "Invalid filename in files list")
      else next
  | some _ => Except.ok (OpValidation.invalid "Files parameter must be a list")
  | Option.none => next

/-- The `'file' in data` block: a non-blank string. -/
def fileCheckStage (data : List (String × PyVal)) (next : Except PyExc OpValidation) :
    Except PyExc OpValidation :=
  match data.lookup "file" with
  | some (PyVal.str s) =>
      if pyStrip s = "" then
        Except.ok (OpValidation.invalid "File parameter must be a valid filename")
      else next
  | some _ => Except.ok (OpValidation.invalid "File parameter must be a valid filename")
  | Option.none => next

/-- The `'pages' in data` block: a dict whose optional `start`/`end` entries
are positive integers with `start <= end` when both are present. -/
def pagesCheckStage (data : List (String × PyVal)) (next : Except PyExc OpValidation) :
    Except PyExc OpValidation :=
  match data.lookup "pages" with
  | some (PyVal.dict pages) =>
      let startBad : Bool :=
        match pages.lookup "start" with
        | some sv => match pyIntVal sv with
                     | some sn => decide (sn < 1)
                     | Option.none => true
        | Option.none => false
      let endBad : Bool :=
        match pages.lookup "end" with
        | some ev => match pyIntVal ev with
                     | some en => decide (en < 1)
                     | Option.none => true
        | Option.none => false
      let orderBad : Bool :=
        match pages.lookup "start", pages.lookup "end" with
        | some sv, some ev => decide ((pyIntVal sv).getD 0 > (pyIntVal ev).getD 0)
        | _, _ => false
      if startBad then Except.ok (OpValidation.invalid "Start page must be a positive integer")
      else if endBad then Except.ok (OpValidation.invalid "End page must be a positive integer")
      else if orderBad then
        Except.ok (OpValidation.invalid "Start page cannot be greater than end page")
      else next
  | some _ => Except.ok (OpValidation.invalid "Pages parameter must be an object")
  | Option.none => next

/-- The `'format' in data` block: `data['format'].upper()` raises
`AttributeError` on a non-string; a string must upcase to one of the three
supported formats. -/
def formatCheckStage (data : List (String × PyVal)) (next : Except PyExc OpValidation) :
    Except PyExc OpValidation :=
  match data.lookup "format" with
  | some (PyVal.str s) =>
      if ¬ ["PNG", "JPEG", "TIFF"].contains (pyUpper s) then
        Except.ok (OpValidation.invalid "Invalid format. Supported: PNG, JPEG, TIFF")
      else next
  | some _ => Except.error PyExc.attributeError
  | Option.none => next

/-- The `'dpi' in data` block: an `int` (Python `bool` included) in [72, 600]. -/
def dpiCheckStage (data : List (String × PyVal)) (next : Except PyExc OpValidation) :
    Except PyExc OpValidation :=
  match data.lookup "dpi" with
  | some v =>
      match pyIntVal v with
      | some n =>
          if n < 72 ∨ 600 < n then
            Except.ok (OpValidation.invalid "DPI must be an integer between 72 and 600")
          else next
      | Option.none =>
          Except.ok (OpValidation.invalid "DPI must be an integer between 72 and 600")
  | Option.none => next

/-- The `'quality' in data` block: `data['quality'].lower()` raises
`AttributeError` on a non-string; a string must downcase to a valid level. -/
def qualityCheckStage (data : List (String × PyVal)) (next : Except PyExc OpValidation) :
    Except PyExc OpValidation :=
  match data.lookup "quality" with
  | some (PyVal.str s) =>
      if ¬ ["low", "medium", "high"].contains (pyLower s) then
        Except.ok (OpValidation.invalid "Invalid quality. Supported: low, medium, high")
      else next
  | some _ => Except.error PyExc.attributeError
  | Option.none => next

/-- Body of `validate_operation_params`, inside its outer `try`: the data
truthiness gate, the required-key gate, then the per-field blocks in source
order, each returning early on its first violation. -/
def validate_operation_params_body (data : List (String × PyVal)) (required : List String) :
    Except PyExc OpValidation :=
  if data.isEmpty then Except.ok (OpValidation.invalid "No data provided")
  else
    let missing := required.filter (fun p => (data.lookup p).isNone)
    if ¬ missing.isEmpty then
      Except.ok (OpValidation.invalid
        ("Missing required parameters: " ++ String.intercalate ", " missing))
    else
      filesCheckStage data (fileCheckStage data (pagesCheckStage data
        (formatCheckStage data (dpiCheckStage data (qualityCheckStage data
          (Except.ok (OpValidation.valid data)))))))

/-- Model of `validate_operation_params`: the body wrapped in its outer
`except Exception: return invalid "Parameter validation failed"`. -/
def validate_operation_params (data : List (String × PyVal)) (required : List String) :
    OpValidation :=
  match validate_operation_params_body data required with
  | Except.ok r => r
  | Except.error _ => OpValidation.invalid "Parameter validation failed"

/-! ## Claim-side definitions for the parameter-check order (C8) -/

/-- The fixed order in which the claim says optional fields are checked. -/
def orderedOptionalFields : List String := ["files", "file", "pages", "format", "dpi", "quality"]

/-- Per-field check as the spec describes it: `Except.error` models the check
itself raising, `Except.ok (some msg)` an `InvalidParameter` failure with
message `msg`, `Except.ok none` a pass. -/
def specFieldCheck (key : String) (v : PyVal) : Except PyExc (Option String) :=
  if key = "files" then
    match v with
    | PyVal.list xs =>
        if xs.isEmpty then Except.ok (some "Files list cannot be empty")
        else if xs.any (fun w => match w with | PyVal.str s => pyStrip s = "" | _ => true) then
          Except.ok (some "Invalid filename in files list")
        else Except.ok Option.none
    | _ => Except.ok (some "Files parameter must be a list")
  else if key = "file" then
    match v with
    | PyVal.str s =>
        if pyStrip s = "" then Except.ok (some "File parameter must be a valid filename")
        else Except.ok Option.none
    | _ => Except.ok (some "File parameter must be a valid filename")
  else if key = "pages" then
    match v with
    | PyVal.dict pages =>
        let startBad : Bool :=
          match pages.lookup "start" with
          | some sv => match pyIntVal sv with
                       | some sn => decide (sn < 1)
                       | Option.none => true
          | Option.none => false
        let endBad : Bool :=
          match pages.lookup "end" with
          | some ev => match pyIntVal ev with
                       | some en => decide (en < 1)
                       | Option.none => true
          | Option.none => false
        let orderBad : Bool :=
          match pages.lookup "start", pages.lookup "end" with
          | some sv, some ev => decide ((pyIntVal sv).getD 0 > (pyIntVal ev).getD 0)
          | _, _ => false
        if startBad then Except.ok (some "Start page must be a positive integer")
        else if endBad then Except.ok (some "End page must be a positive integer")
        else if orderBad then Except.ok (some "Start page cannot be greater than end page")
        else Except.ok Option.none
    | _ => Except.ok (some "Pages parameter must be an object")
  else if key = "format" then
    match v with
    | PyVal.str s =>
        if ¬ ["PNG", "JPEG", "TIFF"].contains (pyUpper s) then
          Except.ok (some "Invalid format. Supported: PNG, JPEG, TIFF")
        else Except.ok Option.none
    | _ => Except.error PyExc.attributeError
  else if key = "dpi" then
    match pyIntVal v with
    | some n =>
        if n < 72 ∨ 600 < n then Except.ok (some "DPI must be an integer between 72 and 600")
        else Except.ok Option.none
    | Option.none => Except.ok (some "DPI must be an integer between 72 and 600")
  else if key = "quality" then
    match v with
    | PyVal.str s =>
        if ¬ ["low", "medium", "high"].contains (pyLower s) then
          Except.ok (some "Invalid quality. Supported: low, medium, high")
        else Except.ok Option.none
    | _ => Except.error PyExc.attributeError
  else Except.ok Option.none

/-- First offending field among `keys`, in order: its failure message, an
exception if its check raises, or `none` when every present field passes. -/
def firstOffendingField : List String → List (String × PyVal) → Except PyExc (Option String)
  | [], _ => Except.ok Option.none
  | k :: ks, data =>
      match data.lookup k with
      | Option.none => firstOffendingField ks data
      | some v =>
          match specFieldCheck k v with
          | Except.error e => Except.error e
          | Except.ok (some msg) => Except.ok (some msg)
          | Except.ok Option.none => firstOffendingField ks data

/-- Interpret the first-offending-field outcome: an exception propagates, a
message becomes the `InvalidParameter` record, a pass falls through to `next`. -/
def fofWrap (keys : List String) (data : List (String × PyVal))
    (next : Except PyExc OpValidation) : Except PyExc OpValidation :=
  match firstOffendingField keys data with
  | Except.error e => Except.error e
  | Except.ok (some msg) => Except.ok (OpValidation.invalid msg)
  | Except.ok Option.none => next

/-- One claim-side field step: look the field up, run its spec check, and
continue with `next` when absent or passing. -/
def specStep (k : String) (data : List (String × PyVal))
    (next : Except PyExc OpValidation) : Except PyExc OpValidation :=
  match data.lookup k with
  | Option.none => next
  | some v =>
      match specFieldCheck k v with
      | Except.error e => Except.error e
      | Except.ok (some msg) => Except.ok (OpValidation.invalid msg)
      | Except.ok Option.none => next

/-- The parameter validator as the claim words it: after the data and
required-key gates, fail at the first offending optional field in the fixed
order, with that field's message (or its exception). -/
def claimOrderValidate (data : List (String × PyVal)) (required : List String) :
    Except PyExc OpValidation :=
  if data.isEmpty then Except.ok (OpValidation.invalid "No data provided")
  else
    let missing := required.filter (fun p => (data.lookup p).isNone)
    if ¬ missing.isEmpty then
      Except.ok (OpValidation.invalid
        ("Missing required parameters: " ++ String.intercalate ", " missing))
    else
      fofWrap orderedOptionalFields data (Except.ok (OpValidation.valid data))

/-- Case-insensitive "the message names this field": the lowered field name
occurs as a substring of the lowered message. -/
def msgMentions (msg field : String) : Bool :=
  hasSubstr (pyLower field).data (pyLower msg).data

/-! ## `routes/api.py`: job ledger and operation orchestrators

Database timestamps (`created_at`, `completed_at`) are omitted: no claim
mentions them. The ledger models the `ProcessingJob` table written by the
`merge` and `split` orchestrators (the handlers the claims cite); ids are
assigned by autoincrement, `output_files`/`error_message` are nullable
columns. -/

structure Job where
  id : Nat
  user_id : Nat
  operation : String
  input_files : List String
  status : String
  error_message : Option String := Option.none
  output_files : Option (List String) := Option.none
deriving DecidableEq, Repr

/-- Result of the job-status route: the 200 view, the 403 `Unauthorized`
response, or the 500 `Internal server error` response. -/
inductive StatusResult where
  | ok (job_id : Nat) (operation : String) (status : String)
      (error : Option String) (output_files : Option (List String))
  | forbidden
  | serverError
deriving DecidableEq, Repr

/-- Model of `ProcessingJob.query.get(job_id)`: primary-key lookup in the ledger. -/
def findJob (ledger : List Job) (job_id : Nat) : Option Job :=
  ledger.find? (fun j => j.id = job_id)

/-- The HTTPException raised by `get_or_404` when the row is absent. -/
inductive HttpExc where
  | notFound
deriving DecidableEq, Repr

/-- Body of `get_job_status` inside its `try`: `get_or_404` raises `NotFound`
for a missing id; a wrong owner returns the 403 response; otherwise the view
is built, attaching `error` only when `error_message` is truthy and
`output_files` only when set and the status is `completed`. -/
def get_job_status_body (ledger : List Job) (job_id : Nat) (current_user_id : Nat) :
    Except HttpExc StatusResult :=
  match findJob ledger job_id with
  | Option.none => Except.error HttpExc.notFound
  | some job =>
      if job.user_id ≠ current_user_id then Except.ok StatusResult.forbidden
      else
        Except.ok (StatusResult.ok job.id job.operation job.status
          (match job.error_message with
           | some m => if m.isEmpty then Option.none else some m
           | Option.none => Option.none)
          (if job.output_files.isSome ∧ job.status = "completed" then job.output_files
           else Option.none))

/-- Model of `get_job_status`: the body wrapped in the handler's blanket
`except Exception: return 500`. Werkzeug's `NotFound` is a subclass of
`Exception`, so the 404 raised by `get_or_404` is caught here too and turned
into the 500 response. -/
def get_job_status (ledger : List Job) (job_id : Nat) (current_user_id : Nat) :
    StatusResult :=
  match get_job_status_body ledger job_id current_user_id with
  | Except.ok r => r
  | Except.error _ => StatusResult.serverError

/-- Response of an operation endpoint: 200 with job id and outputs, 400 with
the validation error, or 500 `Internal server error` (the re-raised engine
failure caught by the outer handler). -/
inductive ApiResponse where
  | ok (job_id : Nat) (outputs : List String)
  | validationError (msg : String)
  | serverError
deriving DecidableEq, Repr

/-- Model of `db.session.commit()` of a mutated row: replace the job with this id. -/
def updateJob (ledger : List Job) (job_id : Nat) (job : Job) : List Job :=
  ledger.map (fun j => if j.id = job_id then job else j)

/-- The value `data['files']` as the engine receives it (the validator has already
ensured it is a non-empty list of non-blank strings on every reachable path). -/
def getFiles (data : List (String × PyVal)) : List String :=
  match data.lookup "files" with
  | some (PyVal.list xs) =>
      xs.map (fun v => match v with | PyVal.str s => s | _ => "")
  | _ => []

/-- The value `data['file']` as the engine receives it. -/
def getFile (data : List (String × PyVal)) : String :=
  match data.lookup "file" with
  | some (PyVal.str s) => s
  | _ => ""

/-- The value `data.get('pages')` as `split_pdf` receives it, with Python truthiness:
`None` and the empty dict are falsy and mean "no range". Integer-valued
`start`/`end` entries are extracted (the validator guarantees integers on
every reachable path). -/
def getPages (data : List (String × PyVal)) : Option PDFProcessor.PageRange :=
  match data.lookup "pages" with
  | some (PyVal.dict d) =>
      if d.isEmpty then Option.none
      else some (PDFProcessor.PageRange.mk
        (match d.lookup "start" with | some v => pyIntVal v | Option.none => Option.none)
        (match d.lookup "end" with | some v => pyIntVal v | Option.none => Option.none))
  | _ => Option.none

/-- The `merge` route handler: validate (no job on failure), create a
`processing` job holding the input list, run the engine, then either mark the
job `completed` with the output filename or mark it `failed` with `str(e)` and
re-raise, which the outer handler turns into the 500 response. -/
def Api.merge_pdfs (store : FileStore) (ledger : List Job) (current_user_id : Nat)
    (data : List (String × PyVal)) (timestamp : String) : List Job × ApiResponse :=
  match validate_operation_params data ["files"] with
  | OpValidation.invalid msg => (ledger, ApiResponse.validationError msg)
  | OpValidation.valid _ =>
      let job : Job :=
        { id := ledger.length + 1, user_id := current_user_id, operation := "merge",
          input_files := getFiles data, status := "processing" }
      let ledger1 := ledger ++ [job]
      match PDFProcessor.merge_pdfs store (getFiles data) timestamp with
      | Except.ok art =>
          let job1 := { job with status := "completed", output_files := some [art.name] }
          (updateJob ledger1 job.id job1, ApiResponse.ok job.id [art.name])
      | Except.error e =>
          let job1 := { job with status := "failed", error_message := some e.message }
          (updateJob ledger1 job.id job1, ApiResponse.serverError)

/-- The `split` route handler, with the same job bookkeeping as `merge`. -/
def Api.split_pdf (store : FileStore) (ledger : List Job) (current_user_id : Nat)
    (data : List (String × PyVal)) (timestamp : String) : List Job × ApiResponse :=
  match validate_operation_params data ["file"] with
  | OpValidation.invalid msg => (ledger, ApiResponse.validationError msg)
  | OpValidation.valid _ =>
      let job : Job :=
        { id := ledger.length + 1, user_id := current_user_id, operation := "split",
          input_files := [getFile data], status := "processing" }
      let ledger1 := ledger ++ [job]
      match PDFProcessor.split_pdf store (getFile data) timestamp (getPages data) with
      | Except.ok arts =>
          let outs := arts.map Artifact.name
          let job1 := { job with status := "completed", output_files := some outs }
          (updateJob ledger1 job.id job1, ApiResponse.ok job.id outs)
      | Except.error e =>
          let job1 := { job with status := "failed", error_message := some e.message }
          (updateJob ledger1 job.id job1, ApiResponse.serverError)

/-- One API request against the job-creating handlers modelled here. -/
inductive Request where
  | mergeReq (current_user_id : Nat) (data : List (String × PyVal)) (timestamp : String)
  | splitReq (current_user_id : Nat) (data : List (String × PyVal)) (timestamp : String)

/-- Ledger transition of one request. -/
def stepRequest (store : FileStore) (ledger : List Job) : Request → List Job
  | Request.mergeReq uid data ts => (Api.merge_pdfs store ledger uid data ts).1
  | Request.splitReq uid data ts => (Api.split_pdf store ledger uid data ts).1

/-- The ledger reached from the empty table after a sequence of requests. -/
def runLedger (store : FileStore) (reqs : List Request) : List Job :=
  reqs.foldl (stepRequest store) []

/-! ## Claim-side job-ledger invariants (C9) -/

/-- The spec's per-job invariant, exactly as claimed: completed with a
non-empty output list, xor failed with an error message present, xor
processing; and a non-empty input list. -/
def jobInvariantClaimed (j : Job) : Bool :=
  j.input_files ≠ [] &&
    ((j.status = "completed" && (match j.output_files with
        | some l => l ≠ []
        | Option.none => false)) ||
     (j.status = "failed" && (match j.error_message with
        | some m => m ≠ ""
        | Option.none => false)) ||
     j.status = "processing")

/-- The invariant that actually holds: as claimed, except that a completed
job's output list is merely set (it may be empty, via a split whose clamped
page range is empty). -/
def jobInvariantAmended (j : Job) : Bool :=
  j.input_files ≠ [] &&
    ((j.status = "completed" && j.output_files.isSome) ||
     (j.status = "failed" && (match j.error_message with
        | some m => m ≠ ""
        | Option.none => false)) ||
     j.status = "processing")

/-! ## Claim-side definitions for filename freshness (C5) -/

/-- One physical engine invocation: distinct invocations carry distinct call
ids, but the generated filename only ever depends on the operation, the input
base name and the second-granularity timestamp. -/
structure EngineCall where
  callId : Nat
  op : String
  base : String
  timestamp : String
deriving DecidableEq, Repr

/-- The output filename the engine generates for an invocation, dispatching to
the source's per-operation name builders. -/
def EngineCall.outputName (c : EngineCall) : String :=
  if c.op = "merge" then PDFProcessor.mergeName c.timestamp
  else PDFProcessor.compressName c.base c.timestamp

/-- The function `claimOrderValidate` wrapped like the source wraps its body: an exception
becomes the generic `Parameter validation failed` record. -/
def claimOrderValidateTotal (data : List (String × PyVal)) (required : List String) :
    OpValidation :=
  match claimOrderValidate data required with
  | Except.ok r => r
  | Except.error _ => OpValidation.invalid "Parameter validation failed"

/-- Every failure message a present optional field can produce, paired with
the (sub-)field name it mentions (`page` is the stem naming the `pages`
field and its `start`/`end` page entries). -/
def fieldMessages : List (String × String) :=
  [("files", "Files parameter must be a list"),
   ("files", "Files list cannot be empty"),
   ("files", "Invalid filename in files list"),
   ("file", "File parameter must be a valid filename"),
   ("page", "Pages parameter must be an object"),
   ("page", "Start page must be a positive integer"),
   ("page", "End page must be a positive integer"),
   ("page", "Start page cannot be greater than end page"),
   ("format", "Invalid format. Supported: PNG, JPEG, TIFF"),
   ("dpi", "DPI must be an integer between 72 and 600"),
   ("quality", "Invalid quality. Supported: low, medium, high")]

/-- A validator result is a proper record: success, or a failure carrying a
non-empty error message. -/
def PdfValidation.wellFormed : PdfValidation → Prop
  | PdfValidation.valid _ _ => True
  | PdfValidation.invalid m => m ≠ ""

/-- Same for the parameter validator's result. -/
def OpValidation.wellFormed : OpValidation → Prop
  | OpValidation.valid _ => True
  | OpValidation.invalid m => m ≠ ""

/-- Store for the C9 counterexample run: one single-page document. -/
def c9Store : FileStore := [("a.pdf", [10])]

/-- Request for the C9 counterexample run: a valid split request whose page
range lies entirely beyond the document's only page. -/
def c9Req : Request :=
  Request.splitReq 7
    [("file", PyVal.str "a.pdf"),
     ("pages", PyVal.dict [("start", PyVal.int 2), ("end", PyVal.int 3)])] "T"

/-! ## General helper lemmas -/

theorem string_data_ext {s t : String} (h : s.data = t.data) : s = t := by
  cases s; cases t; exact congrArg String.mk h

theorem append_ne_empty_left (s t : String) (h : s ≠ "") : s ++ t ≠ "" := by
  intro hc
  apply h
  apply string_data_ext
  have hd := congrArg String.data hc
  rw [String.data_append] at hd
  rcases List.append_eq_nil.mp hd with ⟨h1, _⟩
  simpa using h1

theorem str_app_cancel {a u t1 t2 : String} (h : a ++ t1 ++ u = a ++ t2 ++ u) : t1 = t2 := by
  apply string_data_ext
  have hd := congrArg String.data h
  simp only [String.data_append] at hd
  exact List.append_cancel_left (List.append_cancel_right hd)

theorem pyRange_length (a b : Int) : (pyRange a b).length = (b - a).toNat := by
  rw [pyRange, List.length_map, List.length_range]

theorem mem_pyRange {a b p : Int} : p ∈ pyRange a b ↔ a ≤ p ∧ p < b := by
  unfold pyRange
  constructor
  · intro hp
    rcases List.mem_map.mp hp with ⟨i, hi, rfl⟩
    rw [List.mem_range] at hi
    omega
  · rintro ⟨h1, h2⟩
    exact List.mem_map.mpr ⟨(p - a).toNat, List.mem_range.mpr (by omega), by omega⟩

theorem pyRange_getElem (a b : Int) (i : Nat) (h : i < (pyRange a b).length) :
    (pyRange a b)[i] = a + i := by
  unfold pyRange
  rw [List.getElem_map, List.getElem_range]

theorem mapM_except_ok {α β ε : Type} (l : List α) (f : α → Except ε β) (g : α → β)
    (h : ∀ a ∈ l, f a = Except.ok (g a)) : l.mapM f = Except.ok (l.map g) := by
  induction l with
  | nil => rfl
  | cons a as ih =>
      rw [List.mapM_cons, h a (by simp)]
      rw [ih (fun x hx => h x (by simp [hx]))]
      rfl

theorem PdfError.message_ne_empty (e : PdfError) : e.message ≠ "" := by
  cases e with
  | fileNotFound name => exact append_ne_empty_left _ _ (by decide)
  | indexError => decide
  | zeroDivision => decide

/-! ## Engine lemmas -/

theorem mergeName_inj {t1 t2 : String} (h : PDFProcessor.mergeName t1 = PDFProcessor.mergeName t2) :
    t1 = t2 :=
  str_app_cancel h

theorem compressName_inj {b t1 t2 : String}
    (h : PDFProcessor.compressName b t1 = PDFProcessor.compressName b t2) : t1 = t2 :=
  str_app_cancel h

theorem splitName_inj {b : String} {p : Int} {t1 t2 : String}
    (h : PDFProcessor.splitName b p t1 = PDFProcessor.splitName b p t2) : t1 = t2 :=
  str_app_cancel h

/-- The element-wise split step succeeds on every in-bounds page of a range. -/
theorem split_mapM_eq (doc : PdfDoc) (base ts : String) (a b : Int)
    (ha : 0 ≤ a) (hb : b ≤ (doc.length : Int)) :
    (pyRange a b).mapM (fun page_num =>
      match pyGet doc page_num with
      | some pg => Except.ok (Artifact.mk (PDFProcessor.splitName base page_num ts) [pg])
      | Option.none => Except.error PdfError.indexError)
    = Except.ok ((pyRange a b).map (fun p =>
        Artifact.mk (PDFProcessor.splitName base p ts) [doc.getD p.toNat 0])) := by
  apply mapM_except_ok
  intro p hp
  rcases mem_pyRange.mp hp with ⟨h1, h2⟩
  have h0 : 0 ≤ p := le_trans ha h1
  have hlt : p.toNat < doc.length := by omega
  rw [pyGet, if_pos h0, List.getElem?_eq_getElem hlt, List.getD_eq_getElem doc 0 hlt]

/-- Evaluating `split_pdf` with an explicit start-end range, on an existing file:
the artifact list over the clamped 0-based index range. -/
theorem split_pdf_some_eq (store : FileStore) (fn ts : String) (doc : PdfDoc) (s e : Int)
    (hdoc : store.lookup fn = some doc) (hs : 1 ≤ s) :
    PDFProcessor.split_pdf store fn ts (some (PDFProcessor.PageRange.mk (some s) (some e)))
    = Except.ok ((pyRange (s - 1) (min e (doc.length : Int))).map (fun p =>
        Artifact.mk (PDFProcessor.splitName (splitextBase fn) p ts) [doc.getD p.toNat 0])) := by
  unfold PDFProcessor.split_pdf
  rw [hdoc]
  exact split_mapM_eq doc (splitextBase fn) ts (s - 1) _ (by omega) (min_le_right _ _)

/-- Evaluating `split_pdf` with no range, on an existing file: one artifact per page. -/
theorem split_pdf_none_eq (store : FileStore) (fn ts : String) (doc : PdfDoc)
    (hdoc : store.lookup fn = some doc) :
    PDFProcessor.split_pdf store fn ts Option.none
    = Except.ok ((pyRange 0 (doc.length : Int)).map (fun p =>
        Artifact.mk (PDFProcessor.splitName (splitextBase fn) p ts) [doc.getD p.toNat 0])) := by
  unfold PDFProcessor.split_pdf
  rw [hdoc]
  exact split_mapM_eq doc (splitextBase fn) ts 0 _ le_rfl le_rfl

/-- When every input file resolves, the per-file read step of `merge_pdfs`
collects exactly the looked-up documents. -/
theorem merge_lookup_mapM (store : FileStore) (files : List String) (docs : List PdfDoc)
    (h : files.mapM store.lookup = some docs) :
    files.mapM (fun filename =>
      match store.lookup filename with
      | some d => Except.ok d
      | Option.none => Except.error (PdfError.fileNotFound filename))
    = (Except.ok docs : Except PdfError (List PdfDoc)) := by
  induction files generalizing docs with
  | nil =>
      rw [List.mapM_nil] at h
      cases h
      rfl
  | cons f fs ih =>
      rw [List.mapM_cons] at h
      cases hf : store.lookup f with
      | none => rw [hf] at h; cases h
      | some d =>
          rw [hf] at h
          cases hds : fs.mapM store.lookup with
          | none => rw [hds] at h; cases h
          | some ds =>
              rw [hds] at h
              cases h
              rw [List.mapM_cons, ih ds hds, hf]
              rfl

/-- Evaluating `merge_pdfs` on resolvable inputs: one artifact, the concatenation of all
input documents in input order, under the `merged_{timestamp}.pdf` name. -/
theorem merge_pdfs_eq (store : FileStore) (files : List String) (ts : String)
    (docs : List PdfDoc) (h : files.mapM store.lookup = some docs) :
    PDFProcessor.merge_pdfs store files ts
    = Except.ok (Artifact.mk (PDFProcessor.mergeName ts) docs.flatten) := by
  unfold PDFProcessor.merge_pdfs
  rw [merge_lookup_mapM store files docs h]
  rfl

/-- After appending a fresh job row and committing an update of it under its
own id, the updated row is the last row of the table. -/
theorem updateJob_getLast (ledger : List Job) (jid : Nat) (job job1 : Job)
    (h : job.id = jid) :
    (updateJob (ledger ++ [job]) jid job1).getLast? = some job1 := by
  subst h
  unfold updateJob
  rw [List.map_append]
  simp [List.getLast?_concat]

/-! ## The source's check chain equals the claim's ordered first-failure -/

theorem filesCheckStage_eq (data : List (String × PyVal)) (next : Except PyExc OpValidation) :
    filesCheckStage data next = specStep "files" data next := by
  unfold filesCheckStage specStep
  cases data.lookup "files" with
  | none => rfl
  | some v =>
      cases v <;> try rfl
      case list xs =>
        by_cases h1 : xs.isEmpty <;>
          by_cases h2 : xs.any (fun w => match w with
            | PyVal.str s => pyStrip s = "" | _ => true) <;>
          simp [specFieldCheck, h1, h2]

theorem fileCheckStage_eq (data : List (String × PyVal)) (next : Except PyExc OpValidation) :
    fileCheckStage data next = specStep "file" data next := by
  unfold fileCheckStage specStep
  cases data.lookup "file" with
  | none => rfl
  | some v =>
      cases v <;> try rfl
      case str st =>
        by_cases h1 : pyStrip st = "" <;> simp [specFieldCheck, h1]

theorem pagesCheckStage_eq (data : List (String × PyVal)) (next : Except PyExc OpValidation) :
    pagesCheckStage data next = specStep "pages" data next := by
  unfold pagesCheckStage specStep
  cases data.lookup "pages" with
  | none => rfl
  | some v =>
      cases v <;> try rfl
      case dict pages =>
        simp only [specFieldCheck]
        split <;> try rfl
        split <;> try rfl
        split <;> rfl

theorem formatCheckStage_eq (data : List (String × PyVal)) (next : Except PyExc OpValidation) :
    formatCheckStage data next = specStep "format" data next := by
  unfold formatCheckStage specStep
  cases data.lookup "format" with
  | none => rfl
  | some v =>
      cases v <;> try rfl
      case str st =>
        show (if ¬ ["PNG", "JPEG", "TIFF"].contains (pyUpper st) = true then
                Except.ok (OpValidation.invalid "Invalid format. Supported: PNG, JPEG, TIFF")
              else next)
            = match specFieldCheck "format" (PyVal.str st) with
              | Except.error e => Except.error e
              | Except.ok (some msg) => Except.ok (OpValidation.invalid msg)
              | Except.ok Option.none => next
        rw [show specFieldCheck "format" (PyVal.str st)
            = (if ¬ ["PNG", "JPEG", "TIFF"].contains (pyUpper st) = true then
                Except.ok (some "Invalid format. Supported: PNG, JPEG, TIFF")
              else (Except.ok Option.none : Except PyExc (Option String))) from rfl]
        split_ifs <;> rfl

theorem dpiCheckStage_eq (data : List (String × PyVal)) (next : Except PyExc OpValidation) :
    dpiCheckStage data next = specStep "dpi" data next := by
  unfold dpiCheckStage specStep
  cases data.lookup "dpi" with
  | none => rfl
  | some v =>
      cases hiv : pyIntVal v with
      | none => simp [specFieldCheck, hiv]
      | some n =>
          by_cases h1 : n < 72 ∨ 600 < n <;> simp [specFieldCheck, hiv, h1]

theorem qualityCheckStage_eq (data : List (String × PyVal)) (next : Except PyExc OpValidation) :
    qualityCheckStage data next = specStep "quality" data next := by
  unfold qualityCheckStage specStep
  cases data.lookup "quality" with
  | none => rfl
  | some v =>
      cases v <;> try rfl
      case str st =>
        show (if ¬ ["low", "medium", "high"].contains (pyLower st) = true then
                Except.ok (OpValidation.invalid "Invalid quality. Supported: low, medium, high")
              else next)
            = match specFieldCheck "quality" (PyVal.str st) with
              | Except.error e => Except.error e
              | Except.ok (some msg) => Except.ok (OpValidation.invalid msg)
              | Except.ok Option.none => next
        rw [show specFieldCheck "quality" (PyVal.str st)
            = (if ¬ ["low", "medium", "high"].contains (pyLower st) = true then
                Except.ok (some "Invalid quality. Supported: low, medium, high")
              else (Except.ok Option.none : Except PyExc (Option String))) from rfl]
        split_ifs <;> rfl

theorem specStep_fofWrap (k : String) (ks : List String) (data : List (String × PyVal))
    (next : Except PyExc OpValidation) :
    specStep k data (fofWrap ks data next) = fofWrap (k :: ks) data next := by
  unfold specStep fofWrap
  rw [show firstOffendingField (k :: ks) data
      = (match data.lookup k with
         | Option.none => firstOffendingField ks data
         | some v =>
             match specFieldCheck k v with
             | Except.error e => Except.error e
             | Except.ok (some msg) => Except.ok (some msg)
             | Except.ok Option.none => firstOffendingField ks data) from rfl]
  cases data.lookup k with
  | none => rfl
  | some v =>
      show (match specFieldCheck k v with
            | Except.error e => Except.error e
            | Except.ok (some msg) => Except.ok (OpValidation.invalid msg)
            | Except.ok Option.none =>
                match firstOffendingField ks data with
                | Except.error e => Except.error e
                | Except.ok (some msg) => Except.ok (OpValidation.invalid msg)
                | Except.ok Option.none => next)
          = match (match specFieldCheck k v with
                   | Except.error e => Except.error e
                   | Except.ok (some msg) => Except.ok (some msg)
                   | Except.ok Option.none => firstOffendingField ks data) with
            | Except.error e => Except.error e
            | Except.ok (some msg) => Except.ok (OpValidation.invalid msg)
            | Except.ok Option.none => next
      cases specFieldCheck k v with
      | error e => rfl
      | ok o => cases o <;> rfl

theorem stages_eq (data : List (String × PyVal)) :
    filesCheckStage data (fileCheckStage data (pagesCheckStage data
      (formatCheckStage data (dpiCheckStage data (qualityCheckStage data
        (Except.ok (OpValidation.valid data)))))))
    = fofWrap orderedOptionalFields data (Except.ok (OpValidation.valid data)) := by
  rw [filesCheckStage_eq, fileCheckStage_eq, pagesCheckStage_eq, formatCheckStage_eq,
    dpiCheckStage_eq, qualityCheckStage_eq]
  conv_lhs =>
    rw [show (Except.ok (OpValidation.valid data) : Except PyExc OpValidation)
        = fofWrap [] data (Except.ok (OpValidation.valid data)) from rfl]
  rw [specStep_fofWrap, specStep_fofWrap, specStep_fofWrap, specStep_fofWrap,
    specStep_fofWrap, specStep_fofWrap]
  rfl

/-- The source validator body computes exactly the claim's "first offending
field in the fixed order files, file, pages, format, dpi, quality". -/
theorem validator_eq_ordered (data : List (String × PyVal)) (required : List String) :
    validate_operation_params_body data required = claimOrderValidate data required := by
  unfold validate_operation_params_body claimOrderValidate
  by_cases h1 : data.isEmpty
  · rw [if_pos h1, if_pos h1]
  · rw [if_neg h1, if_neg h1]
    by_cases h2 : ¬ (required.filter (fun p => (data.lookup p).isNone)).isEmpty
    · rw [if_pos h2, if_pos h2]
    · rw [if_neg h2, if_neg h2]
      exact stages_eq data

/-! ## Well-formedness of validator results (C10) -/

theorem wf_pdf_invalid {m : String} (hm : m ≠ "") :
    (PdfValidation.invalid m).wellFormed := hm

theorem wf_pdf_valid (a b : Nat) : (PdfValidation.valid a b).wellFormed := trivial

theorem wf_op_invalid {m : String} (hm : m ≠ "") :
    (OpValidation.invalid m).wellFormed := hm

theorem wf_op_valid (d : List (String × PyVal)) : (OpValidation.valid d).wellFormed := trivial

theorem validate_pdf_file_body_wf (f : FileObj) (r : PdfValidation)
    (h : validate_pdf_file_body f = Except.ok r) : r.wellFormed := by
  unfold validate_pdf_file_body at h
  by_cases h1 : (match f.filename with | Option.none => true | some s => s.isEmpty) = true
  · rw [if_pos h1] at h
    cases h
    exact wf_pdf_invalid (by decide)
  · rw [if_neg h1] at h
    by_cases h2 : ¬ pyEndsWith (pyLower (f.filename.getD "")) ".pdf" = true
    · rw [if_pos h2] at h
      cases h
      exact wf_pdf_invalid (by decide)
    · rw [if_neg h2] at h
      by_cases h3 : f.seekRaises = true
      · rw [if_pos h3] at h
        cases h
      · rw [if_neg h3] at h
        by_cases h4 : f.size > MAX_FILE_SIZE
        · rw [if_pos h4] at h
          cases h
          exact wf_pdf_invalid (by decide)
        · rw [if_neg h4] at h
          by_cases h5 : f.size < MIN_FILE_SIZE
          · rw [if_pos h5] at h
            cases h
            exact wf_pdf_invalid (by decide)
          · rw [if_neg h5] at h
            by_cases h6 : f.readRaises = true
            · rw [if_pos h6] at h
              cases h
              exact wf_pdf_invalid (append_ne_empty_left _ _ (by decide))
            · rw [if_neg h6] at h
              cases hp : f.parsed with
              | none =>
                  rw [hp] at h
                  cases h
                  exact wf_pdf_invalid (append_ne_empty_left _ _ (by decide))
              | some doc =>
                  rw [hp] at h
                  have h' : (if doc.length = 0 then
                      Except.ok (PdfValidation.invalid "PDF file contains no pages")
                    else Except.ok (PdfValidation.valid f.size doc.length)) = Except.ok r := h
                  by_cases h7 : doc.length = 0
                  · rw [if_pos h7] at h'
                    cases h'
                    exact wf_pdf_invalid (by decide)
                  · rw [if_neg h7] at h'
                    cases h'
                    exact wf_pdf_valid _ _

theorem ite_chain3 {c1 c2 c3 : Bool} {l1 l2 l3 m : String}
    (h : (if c1 = true then Except.ok (some l1)
          else if c2 = true then Except.ok (some l2)
          else if c3 = true then Except.ok (some l3)
          else (Except.ok Option.none : Except PyExc (Option String)))
        = Except.ok (some m)) :
    m = l1 ∨ m = l2 ∨ m = l3 := by
  by_cases h1 : c1 = true
  · rw [if_pos h1] at h
    cases h
    exact Or.inl rfl
  · rw [if_neg h1] at h
    by_cases h2 : c2 = true
    · rw [if_pos h2] at h
      cases h
      exact Or.inr (Or.inl rfl)
    · rw [if_neg h2] at h
      by_cases h3 : c3 = true
      · rw [if_pos h3] at h
        cases h
        exact Or.inr (Or.inr rfl)
      · rw [if_neg h3] at h
        cases h

theorem specFieldCheck_msg_ne (k : String) (v : PyVal) (m : String)
    (h : specFieldCheck k v = Except.ok (some m)) : m ≠ "" := by
  unfold specFieldCheck at h
  split_ifs at h
  · cases v <;> try (cases h; decide)
    repeat' split at h
    all_goals cases h
    all_goals decide
  · cases v <;> try (cases h; decide)
    repeat' split at h
    all_goals cases h
    all_goals decide
  · cases v <;> try (cases h; decide)
    rcases ite_chain3 h with rfl | rfl | rfl <;> decide
  · cases v <;> try cases h
    repeat' split at h
    all_goals cases h
    all_goals decide
  · repeat' split at h
    all_goals cases h
    all_goals decide
  · cases v <;> try cases h
    repeat' split at h
    all_goals cases h
    all_goals decide
  · cases h

theorem fof_msg_ne (ks : List String) (data : List (String × PyVal)) (m : String)
    (h : firstOffendingField ks data = Except.ok (some m)) : m ≠ "" := by
  induction ks with
  | nil => cases h
  | cons k ks ih =>
      unfold firstOffendingField at h
      cases hl : data.lookup k with
      | none =>
          rw [hl] at h
          exact ih h
      | some v =>
          rw [hl] at h
          have h' : (match specFieldCheck k v with
              | Except.error e => Except.error e
              | Except.ok (some msg) => Except.ok (some msg)
              | Except.ok Option.none => firstOffendingField ks data)
              = Except.ok (some m) := h
          cases hc : specFieldCheck k v with
          | error e => rw [hc] at h'; cases h'
          | ok o =>
              rw [hc] at h'
              cases o with
              | none => exact ih h'
              | some m2 =>
                  cases h'
                  exact specFieldCheck_msg_ne k v m hc

theorem validate_operation_params_body_wf (data : List (String × PyVal))
    (required : List String) (r : OpValidation)
    (h : validate_operation_params_body data required = Except.ok r) : r.wellFormed := by
  rw [validator_eq_ordered] at h
  unfold claimOrderValidate at h
  by_cases h1 : data.isEmpty
  · rw [if_pos h1] at h
    cases h
    exact wf_op_invalid (by decide)
  · rw [if_neg h1] at h
    by_cases h2 : ¬ (required.filter (fun p => (data.lookup p).isNone)).isEmpty = true
    · rw [if_pos h2] at h
      cases h
      exact wf_op_invalid (append_ne_empty_left _ _ (by decide))
    · rw [if_neg h2] at h
      unfold fofWrap at h
      cases hf : firstOffendingField orderedOptionalFields data with
      | error e => rw [hf] at h; cases h
      | ok o =>
          rw [hf] at h
          cases o with
          | none =>
              cases h
              exact wf_op_valid data
          | some m =>
              cases h
              exact wf_op_invalid (fof_msg_ne _ _ _ hf)

/-! ## Job-ledger invariant preservation (C9) -/

/-- A merge request whose validation succeeds has a non-empty `files` list. -/
theorem valid_files_nonempty (data d : List (String × PyVal))
    (hv : validate_operation_params data ["files"] = OpValidation.valid d) :
    getFiles data ≠ [] := by
  unfold validate_operation_params at hv
  rw [validator_eq_ordered] at hv
  have hco : claimOrderValidate data ["files"] = Except.ok (OpValidation.valid d) := by
    cases hc : claimOrderValidate data ["files"] with
    | error e =>
        rw [hc] at hv
        cases hv
    | ok r =>
        rw [hc] at hv
        have hr : r = OpValidation.valid d := hv
        rw [hr]
  clear hv
  rename' hco => hv
  unfold claimOrderValidate at hv
  by_cases h1 : data.isEmpty
  · rw [if_pos h1] at hv
    cases hv
  · rw [if_neg h1] at hv
    by_cases h2 : ¬ (["files"].filter (fun p => (data.lookup p).isNone)).isEmpty = true
    · rw [if_pos h2] at hv
      cases hv
    · rw [if_neg h2] at hv
      rw [not_not] at h2
      have hsome : ∃ v, data.lookup "files" = some v := by
        cases hl : data.lookup "files" with
        | none =>
            exfalso
            simp [List.filter_cons, hl] at h2
        | some v => exact ⟨v, rfl⟩
      obtain ⟨v, hl⟩ := hsome
      unfold fofWrap at hv
      rw [show firstOffendingField orderedOptionalFields data
          = (match data.lookup "files" with
             | Option.none =>
                 firstOffendingField ["file", "pages", "format", "dpi", "quality"] data
             | some w =>
                 match specFieldCheck "files" w with
                 | Except.error e => Except.error e
                 | Except.ok (some msg) => Except.ok (some msg)
                 | Except.ok Option.none =>
                     firstOffendingField ["file", "pages", "format", "dpi", "quality"] data)
          from rfl, hl] at hv
      have h3 : (match (match specFieldCheck "files" v with
            | Except.error e => Except.error e
            | Except.ok (some msg) => Except.ok (some msg)
            | Except.ok Option.none =>
                firstOffendingField ["file", "pages", "format", "dpi", "quality"] data) with
          | Except.error e => Except.error e
          | Except.ok (some msg) => Except.ok (OpValidation.invalid msg)
          | Except.ok Option.none => Except.ok (OpValidation.valid data))
          = Except.ok (OpValidation.valid d) := hv
      cases v with
      | list xs =>
          by_cases hxs : xs.isEmpty = true
          · rw [show specFieldCheck "files" (PyVal.list xs)
                = (if xs.isEmpty = true then Except.ok (some "Files list cannot be empty")
                   else if (xs.any (fun w => match w with
                       | PyVal.str s => pyStrip s = "" | _ => true)) = true then
                     Except.ok (some "Invalid filename in files list")
                   else (Except.ok Option.none : Except PyExc (Option String))) from rfl,
              if_pos hxs] at h3
            cases h3
          · unfold getFiles
            rw [hl]
            intro hc
            cases xs with
            | nil => exact hxs rfl
            | cons a as => cases hc
      | str s =>
          rw [show specFieldCheck "files" (PyVal.str s)
              = Except.ok (some "Files parameter must be a list") from rfl] at h3
          cases h3
      | int n =>
          rw [show specFieldCheck "files" (PyVal.int n)
              = Except.ok (some "Files parameter must be a list") from rfl] at h3
          cases h3
      | pybool b =>
          rw [show specFieldCheck "files" (PyVal.pybool b)
              = Except.ok (some "Files parameter must be a list") from rfl] at h3
          cases h3
      | dict xs =>
          rw [show specFieldCheck "files" (PyVal.dict xs)
              = Except.ok (some "Files parameter must be a list") from rfl] at h3
          cases h3
      | pynone =>
          rw [show specFieldCheck "files" PyVal.pynone
              = Except.ok (some "Files parameter must be a list") from rfl] at h3
          cases h3

/-- Every row of a committed update of a freshly appended job is the updated
row, an untouched pre-existing row, or the appended row itself. -/
theorem mem_updateJob_append {L : List Job} {job job1 j : Job} {jid : Nat}
    (h : j ∈ updateJob (L ++ [job]) jid job1) : j = job1 ∨ j ∈ L ∨ j = job := by
  unfold updateJob at h
  rcases List.mem_map.mp h with ⟨x, hx, rfl⟩
  rcases List.mem_append.mp hx with hxL | hxj
  · by_cases hid : x.id = jid
    · rw [if_pos hid]
      exact Or.inl rfl
    · rw [if_neg hid]
      exact Or.inr (Or.inl hxL)
  · have hxe : x = job := by simpa using hxj
    subst hxe
    by_cases hid : x.id = jid
    · rw [if_pos hid]
      exact Or.inl rfl
    · rw [if_neg hid]
      exact Or.inr (Or.inr rfl)

/-- The ledger after a merge request: unchanged (validation failed), or a
committed update of a freshly appended job, where both the appended and the
updated row satisfy the amended invariant. -/
theorem merge_ledger_cases (store : FileStore) (ledger : List Job) (uid : Nat)
    (data : List (String × PyVal)) (ts : String) :
    (Api.merge_pdfs store ledger uid data ts).1 = ledger ∨
    ∃ job job1 : Job, jobInvariantAmended job = true ∧ jobInvariantAmended job1 = true ∧
      (Api.merge_pdfs store ledger uid data ts).1
        = updateJob (ledger ++ [job]) job.id job1 := by
  cases hv : validate_operation_params data ["files"] with
  | invalid msg =>
      left
      simp [Api.merge_pdfs, hv]
  | valid d =>
      right
      have hne := valid_files_nonempty data d hv
      cases heng : PDFProcessor.merge_pdfs store (getFiles data) ts with
      | ok art =>
          refine ⟨Job.mk (ledger.length + 1) uid "merge" (getFiles data) "processing"
              Option.none Option.none,
            Job.mk (ledger.length + 1) uid "merge" (getFiles data) "completed"
              Option.none (some [art.name]), ?_, ?_, ?_⟩
          · simp [jobInvariantAmended, hne]
          · simp [jobInvariantAmended, hne]
          · simp [Api.merge_pdfs, hv, heng]
      | error e =>
          refine ⟨Job.mk (ledger.length + 1) uid "merge" (getFiles data) "processing"
              Option.none Option.none,
            Job.mk (ledger.length + 1) uid "merge" (getFiles data) "failed"
              (some e.message) Option.none, ?_, ?_, ?_⟩
          · simp [jobInvariantAmended, hne]
          · simp [jobInvariantAmended, hne, PdfError.message_ne_empty e]
          · simp [Api.merge_pdfs, hv, heng]

/-- The ledger after a split request, in the same shape as for merge; the
input list is the one-element list around `data['file']`. -/
theorem split_ledger_cases (store : FileStore) (ledger : List Job) (uid : Nat)
    (data : List (String × PyVal)) (ts : String) :
    (Api.split_pdf store ledger uid data ts).1 = ledger ∨
    ∃ job job1 : Job, jobInvariantAmended job = true ∧ jobInvariantAmended job1 = true ∧
      (Api.split_pdf store ledger uid data ts).1
        = updateJob (ledger ++ [job]) job.id job1 := by
  cases hv : validate_operation_params data ["file"] with
  | invalid msg =>
      left
      simp [Api.split_pdf, hv]
  | valid d =>
      right
      cases heng : PDFProcessor.split_pdf store (getFile data) ts (getPages data) with
      | ok arts =>
          refine ⟨Job.mk (ledger.length + 1) uid "split" [getFile data] "processing"
              Option.none Option.none,
            Job.mk (ledger.length + 1) uid "split" [getFile data] "completed"
              Option.none (some (arts.map Artifact.name)), ?_, ?_, ?_⟩
          · simp [jobInvariantAmended]
          · simp [jobInvariantAmended]
          · simp [Api.split_pdf, hv, heng]
      | error e =>
          refine ⟨Job.mk (ledger.length + 1) uid "split" [getFile data] "processing"
              Option.none Option.none,
            Job.mk (ledger.length + 1) uid "split" [getFile data] "failed"
              (some e.message) Option.none, ?_, ?_, ?_⟩
          · simp [jobInvariantAmended]
          · simp [jobInvariantAmended, PdfError.message_ne_empty e]
          · simp [Api.split_pdf, hv, heng]

/-- One request preserves the amended per-job invariant over the ledger. -/
theorem step_preserves (store : FileStore) (ledger : List Job) (req : Request)
    (hL : ∀ j ∈ ledger, jobInvariantAmended j = true) :
    ∀ j ∈ stepRequest store ledger req, jobInvariantAmended j = true := by
  have key : ∀ (cases_ : (stepRequest store ledger req) = ledger ∨
      ∃ job job1 : Job, jobInvariantAmended job = true ∧ jobInvariantAmended job1 = true ∧
        stepRequest store ledger req = updateJob (ledger ++ [job]) job.id job1),
      ∀ j ∈ stepRequest store ledger req, jobInvariantAmended j = true := by
    intro hcases j hj
    rcases hcases with heq | ⟨job, job1, hjob, hjob1, heq⟩
    · rw [heq] at hj
      exact hL j hj
    · rw [heq] at hj
      rcases mem_updateJob_append hj with rfl | hmem | rfl
      · exact hjob1
      · exact hL j hmem
      · exact hjob
  cases req with
  | mergeReq uid data ts => exact key (merge_ledger_cases store ledger uid data ts)
  | splitReq uid data ts => exact key (split_ledger_cases store ledger uid data ts)

/-- Every job in any ledger reachable from the empty table satisfies the
amended invariant. -/
theorem runLedger_inv (store : FileStore) (reqs : List Request) :
    ∀ j ∈ runLedger store reqs, jobInvariantAmended j = true := by
  unfold runLedger
  have key : ∀ (rs : List Request) (L : List Job),
      (∀ j ∈ L, jobInvariantAmended j = true) →
      ∀ j ∈ rs.foldl (stepRequest store) L, jobInvariantAmended j = true := by
    intro rs
    induction rs with
    | nil =>
        intro L hL
        simpa using hL
    | cons r rs ih =>
        intro L hL
        rw [List.foldl_cons]
        exact ih _ (step_preserves store L r hL)
  exact key reqs [] (by simp)

/-! ## Claim theorems -/

/-- C2: for every non-empty list of valid input filenames, `merge` produces
exactly one output PDF whose page count equals the sum of the input files'
page counts, with the pages appearing in the order the filenames were given
(the output document is the in-order concatenation of the input documents). -/
theorem claim_C2 (store : FileStore) (files : List String) (ts : String)
    (docs : List PdfDoc) (_hne : files ≠ []) (h : files.mapM store.lookup = some docs) :
    ∃ art : Artifact,
      PDFProcessor.merge_pdfs store files ts = Except.ok art ∧
      art.doc = docs.flatten ∧
      art.doc.length = (docs.map List.length).sum :=
  ⟨_, merge_pdfs_eq store files ts docs h, rfl, List.length_flatten docs⟩

theorem claim_C2_witness :
    (["a.pdf", "b.pdf"] : List String) ≠ [] ∧
    ∃ art : Artifact,
      PDFProcessor.merge_pdfs [("a.pdf", [1, 2]), ("b.pdf", [3])] ["a.pdf", "b.pdf"] "T"
        = Except.ok art ∧
      art.doc = ([[1, 2], [3]] : List PdfDoc).flatten ∧
      art.doc.length = (([[1, 2], [3]] : List PdfDoc).map List.length).sum :=
  ⟨by decide, claim_C2 _ _ _ [[1, 2], [3]] (by decide) rfl⟩

/-- C3 (code bug): for a nonexistent job id, `get_or_404` does raise
`NotFound`, but the handler's blanket `except Exception` catches that
`HTTPException` subclass and answers 500 `Internal server error`, not 404;
the Forbidden and success branches behave as claimed. -/
theorem claim_C3_code_bug :
    get_job_status_body [] 1 7 = Except.error HttpExc.notFound ∧
    get_job_status [] 1 7 = StatusResult.serverError ∧
    get_job_status [Job.mk 1 2 "merge" ["a.pdf"] "completed" Option.none (some ["m.pdf"])] 1 7
      = StatusResult.forbidden ∧
    get_job_status [Job.mk 1 7 "merge" ["a.pdf"] "completed" Option.none (some ["m.pdf"])] 1 7
      = StatusResult.ok 1 "merge" "completed" Option.none (some ["m.pdf"]) :=
  ⟨rfl, rfl, rfl, rfl⟩

/-- C4: when the engine fails after the job was created, the job row ends
`failed` with the failure description as its (non-empty) error message and no
output files attached, and the caller still receives the failure response
(500), for both the merge and the split orchestrators. -/
theorem claim_C4 (store : FileStore) (ledger : List Job) (uid : Nat)
    (dataM dataS : List (String × PyVal)) (tsM tsS : String) (eM eS : PdfError) :
    (validate_operation_params dataM ["files"] = OpValidation.valid dataM →
      PDFProcessor.merge_pdfs store (getFiles dataM) tsM = Except.error eM →
      (Api.merge_pdfs store ledger uid dataM tsM).2 = ApiResponse.serverError ∧
      ∃ j : Job, (Api.merge_pdfs store ledger uid dataM tsM).1.getLast? = some j ∧
        j.status = "failed" ∧ j.error_message = some eM.message ∧ eM.message ≠ "" ∧
        j.output_files = Option.none) ∧
    (validate_operation_params dataS ["file"] = OpValidation.valid dataS →
      PDFProcessor.split_pdf store (getFile dataS) tsS (getPages dataS) = Except.error eS →
      (Api.split_pdf store ledger uid dataS tsS).2 = ApiResponse.serverError ∧
      ∃ j : Job, (Api.split_pdf store ledger uid dataS tsS).1.getLast? = some j ∧
        j.status = "failed" ∧ j.error_message = some eS.message ∧ eS.message ≠ "" ∧
        j.output_files = Option.none) := by
  constructor
  · intro hv heng
    have hL : (Api.merge_pdfs store ledger uid dataM tsM).1
        = updateJob
            (ledger ++ [Job.mk (ledger.length + 1) uid "merge" (getFiles dataM) "processing"
              Option.none Option.none])
            (ledger.length + 1)
            (Job.mk (ledger.length + 1) uid "merge" (getFiles dataM) "failed"
              (some eM.message) Option.none) := by
      simp only [Api.merge_pdfs, hv, heng]
    have hR : (Api.merge_pdfs store ledger uid dataM tsM).2 = ApiResponse.serverError := by
      simp only [Api.merge_pdfs, hv, heng]
    refine ⟨hR, Job.mk (ledger.length + 1) uid "merge" (getFiles dataM) "failed"
      (some eM.message) Option.none, ?_, rfl, rfl, PdfError.message_ne_empty eM, rfl⟩
    rw [hL]
    exact updateJob_getLast ledger (ledger.length + 1) _ _ rfl
  · intro hv heng
    have hL : (Api.split_pdf store ledger uid dataS tsS).1
        = updateJob
            (ledger ++ [Job.mk (ledger.length + 1) uid "split" [getFile dataS] "processing"
              Option.none Option.none])
            (ledger.length + 1)
            (Job.mk (ledger.length + 1) uid "split" [getFile dataS] "failed"
              (some eS.message) Option.none) := by
      simp only [Api.split_pdf, hv, heng]
    have hR : (Api.split_pdf store ledger uid dataS tsS).2 = ApiResponse.serverError := by
      simp only [Api.split_pdf, hv, heng]
    refine ⟨hR, Job.mk (ledger.length + 1) uid "split" [getFile dataS] "failed"
      (some eS.message) Option.none, ?_, rfl, rfl, PdfError.message_ne_empty eS, rfl⟩
    rw [hL]
    exact updateJob_getLast ledger (ledger.length + 1) _ _ rfl

theorem claim_C4_witness :
    ((Api.merge_pdfs [] [] 7 [("files", PyVal.list [PyVal.str "a.pdf"])] "T").2
        = ApiResponse.serverError ∧
      ∃ j : Job,
        (Api.merge_pdfs [] [] 7 [("files", PyVal.list [PyVal.str "a.pdf"])] "T").1.getLast?
          = some j ∧
        j.status = "failed" ∧ j.error_message = some (PdfError.fileNotFound "a.pdf").message ∧
        (PdfError.fileNotFound "a.pdf").message ≠ "" ∧ j.output_files = Option.none) ∧
    ((Api.split_pdf [] [] 7 [("file", PyVal.str "b.pdf")] "T").2 = ApiResponse.serverError ∧
      ∃ j : Job,
        (Api.split_pdf [] [] 7 [("file", PyVal.str "b.pdf")] "T").1.getLast? = some j ∧
        j.status = "failed" ∧ j.error_message = some (PdfError.fileNotFound "b.pdf").message ∧
        (PdfError.fileNotFound "b.pdf").message ≠ "" ∧ j.output_files = Option.none) :=
  ⟨(claim_C4 [] [] 7 [("files", PyVal.list [PyVal.str "a.pdf"])] [("file", PyVal.str "b.pdf")]
      "T" "T" (PdfError.fileNotFound "a.pdf") (PdfError.fileNotFound "b.pdf")).1 (by rfl) rfl,
   (claim_C4 [] [] 7 [("files", PyVal.list [PyVal.str "a.pdf"])] [("file", PyVal.str "b.pdf")]
      "T" "T" (PdfError.fileNotFound "a.pdf") (PdfError.fileNotFound "b.pdf")).2 (by rfl) rfl⟩

/-- C5 fails as stated: two distinct merge invocations falling in the same
second of `datetime.now().strftime("%Y%m%d_%H%M%S")` generate the very same
output filename, so the second write overwrites the first artifact. -/
theorem claim_C5_counterexample :
    EngineCall.mk 0 "merge" "" "20240101_120000" ≠ EngineCall.mk 1 "merge" "" "20240101_120000" ∧
    (EngineCall.mk 0 "merge" "" "20240101_120000").outputName
      = (EngineCall.mk 1 "merge" "" "20240101_120000").outputName :=
  ⟨by decide, rfl⟩

/-- C5 amended: every generated output filename embeds the operation name and
the second-granularity creation timestamp, and invocations of the same
operation on the same base name with *different* timestamps get distinct
names; invocations sharing the same timestamp second may collide. -/
theorem claim_C5_amended :
    (∀ t, PDFProcessor.mergeName t = "merged_" ++ t ++ ".pdf") ∧
    (∀ b t, PDFProcessor.compressName b t = b ++ "_compressed_" ++ t ++ ".pdf") ∧
    (∀ b p t, PDFProcessor.splitName b p t
      = b ++ "_page_" ++ toString (p + 1) ++ "_" ++ t ++ ".pdf") ∧
    (∀ b p t1 t2, t1 ≠ t2 → PDFProcessor.splitName b p t1 ≠ PDFProcessor.splitName b p t2) ∧
    (∀ c1 c2 : EngineCall, c1.op = c2.op → c1.base = c2.base → c1.timestamp ≠ c2.timestamp →
      c1.outputName ≠ c2.outputName) := by
  refine ⟨fun t => rfl, fun b t => rfl, fun b p t => rfl,
    fun b p t1 t2 ht hn => ht (splitName_inj hn), ?_⟩
  intro c1 c2 hop hbase ht hname
  unfold EngineCall.outputName at hname
  rw [hop, hbase] at hname
  by_cases hm : c2.op = "merge"
  · rw [if_pos hm, if_pos hm] at hname
    exact ht (mergeName_inj hname)
  · rw [if_neg hm, if_neg hm] at hname
    exact ht (compressName_inj hname)

theorem claim_C5_witness :
    ("20240101_120000" : String) ≠ "20240101_120001" ∧
    (EngineCall.mk 0 "merge" "" "20240101_120000").outputName
      ≠ (EngineCall.mk 1 "merge" "" "20240101_120001").outputName :=
  ⟨by decide, claim_C5_amended.2.2.2.2 _ _ rfl rfl (by decide)⟩

/-- C6 fails as stated: the rewrite performed for quality `high` (only
`compress_identical_objects`) is not the rewrite performed for `medium`
(which additionally calls `remove_duplicates`), as shown on a concrete file. -/
theorem claim_C6_counterexample :
    PDFProcessor.compressionSteps "high" ≠ PDFProcessor.compressionSteps "medium" ∧
    PDFProcessor.compress_pdf [("a.pdf", [1])] (fun _ => 2048) (fun _ _ => 1024) "a.pdf" "T" "high"
      ≠ PDFProcessor.compress_pdf [("a.pdf", [1])] (fun _ => 2048) (fun _ _ => 1024) "a.pdf" "T"
          "medium" :=
  ⟨by decide, by decide⟩

/-- C6 amended: `low` performs exactly the rewrite of `medium` (and so does
every quality value other than `high`), while `high` performs only the
duplicate-identical-object rewrite, omitting `remove_duplicates`. -/
theorem claim_C6_amended :
    PDFProcessor.compressionSteps "low" = PDFProcessor.compressionSteps "medium" ∧
    (∀ store sz ser fn ts,
      PDFProcessor.compress_pdf store sz ser fn ts "low"
        = PDFProcessor.compress_pdf store sz ser fn ts "medium") ∧
    PDFProcessor.compressionSteps "high" = [PDFProcessor.CompressStep.compress_identical_objects] ∧
    (∀ q, q ≠ "high" → PDFProcessor.compressionSteps q = PDFProcessor.compressionSteps "medium") := by
  refine ⟨by decide, fun store sz ser fn ts => rfl, by decide, ?_⟩
  intro q hq
  unfold PDFProcessor.compressionSteps
  rw [if_neg hq]
  split <;> rfl

theorem claim_C6_witness :
    PDFProcessor.compressionSteps "LOW" = PDFProcessor.compressionSteps "medium" :=
  claim_C6_amended.2.2.2 "LOW" (by decide)

/-- C7: every successful compress call reports exactly
`(original_size - compressed_size) / original_size * 100`, and a zero or
negative ratio (output at least as large as the input) is still a success. -/
theorem claim_C7 (store : FileStore) (sz : String → Nat)
    (ser : PdfDoc → List PDFProcessor.CompressStep → Nat) (fn ts q : String) (doc : PdfDoc)
    (hdoc : store.lookup fn = some doc) (hsz : sz fn ≠ 0) :
    ∃ r : PDFProcessor.CompressResult,
      PDFProcessor.compress_pdf store sz ser fn ts q = Except.ok r ∧
      r.compression_ratio
        = ((sz fn : ℚ) - (ser doc (PDFProcessor.compressionSteps q) : ℚ)) / (sz fn : ℚ) * 100 ∧
      ((sz fn : ℚ) < (ser doc (PDFProcessor.compressionSteps q) : ℚ) →
        r.compression_ratio < 0) ∧
      ((ser doc (PDFProcessor.compressionSteps q) : ℚ) = (sz fn : ℚ) →
        r.compression_ratio = 0) := by
  have heq : PDFProcessor.compress_pdf store sz ser fn ts q
      = Except.ok (PDFProcessor.CompressResult.mk
          (PDFProcessor.compressName (splitextBase fn) ts) (doc, PDFProcessor.compressionSteps q)
          (((sz fn : ℚ) - (ser doc (PDFProcessor.compressionSteps q) : ℚ)) / (sz fn : ℚ) * 100)) := by
    simp only [PDFProcessor.compress_pdf, hdoc]
    rw [if_neg hsz]
  have hpos : (0 : ℚ) < (sz fn : ℚ) := by
    exact_mod_cast Nat.pos_of_ne_zero hsz
  refine ⟨_, heq, rfl, fun hlt => ?_, fun hz => ?_⟩
  · exact mul_neg_of_neg_of_pos (div_neg_of_neg_of_pos (by linarith) hpos) (by norm_num)
  · rw [hz]
    simp

/-- C8 fails as stated: a non-string `format` value makes
`data['format'].upper()` raise `AttributeError`, which the validator's outer
`except` turns into the generic `Parameter validation failed` record — a
failure that names no field. -/
theorem claim_C8_counterexample :
    validate_operation_params [("format", PyVal.int 300)] []
      = OpValidation.invalid "Parameter validation failed" ∧
    msgMentions "Parameter validation failed" "format" = false :=
  ⟨rfl, rfl⟩

/-- C8 amended: the validator checks optional fields exactly in the order
files, file, pages, format, dpi, quality, failing at the first offending
field with that field's `InvalidParameter` message — except that a non-string
`format` or `quality` value raises inside the check and yields the generic
`Parameter validation failed` message naming no field; every per-field
message names its field (for `pages`, via the stem `page`, also used by the
start/end sub-field messages). -/
theorem claim_C8_amended :
    (∀ (data : List (String × PyVal)) (required : List String),
      validate_operation_params data required = claimOrderValidateTotal data required) ∧
    fieldMessages.all (fun pr => msgMentions pr.2 pr.1) = true := by
  refine ⟨?_, rfl⟩
  intro data required
  unfold validate_operation_params claimOrderValidateTotal
  rw [validator_eq_ordered]

/-- C10: both validators are total: on every input (missing or non-PDF file,
unreadable or unseekable stream, arbitrarily typed parameter values) they
return a record — success, or failure with a non-empty error message — and
never propagate an exception: the raising paths of their bodies are all
captured by the outer handler, which yields the generic failure record. -/
theorem claim_C10 :
    (∀ f : FileObj, (validate_pdf_file f).wellFormed) ∧
    (∀ (data : List (String × PyVal)) (required : List String),
      (validate_operation_params data required).wellFormed) := by
  constructor
  · intro f
    unfold validate_pdf_file
    cases hb : validate_pdf_file_body f with
    | ok r => exact validate_pdf_file_body_wf f r hb
    | error e =>
        show ("File validation failed" : String) ≠ ""
        decide
  · intro data required
    unfold validate_operation_params
    cases hb : validate_operation_params_body data required with
    | ok r => exact validate_operation_params_body_wf data required r hb
    | error e =>
        show ("Parameter validation failed" : String) ≠ ""
        decide

/-- C9 fails as stated: a valid split request whose page range lies beyond
the document's last page completes with an *empty* output list, so the
reachable ledger holds a `completed` job violating the claimed
"completed implies non-empty outputs" invariant. -/
theorem claim_C9_counterexample :
    runLedger c9Store [c9Req]
      = [Job.mk 1 7 "split" ["a.pdf"] "completed" Option.none (some [])] ∧
    jobInvariantClaimed (Job.mk 1 7 "split" ["a.pdf"] "completed" Option.none (some []))
      = false :=
  ⟨rfl, rfl⟩

/-- C9 amended: in every ledger reachable through the job-creating handlers,
each job satisfies exactly one of: status `completed` with its output list
set (possibly empty, via a split whose clamped range is empty), status
`failed` with a non-empty error message, or status `processing`; and its
input file list is non-empty. -/
theorem claim_C9_amended (store : FileStore) (reqs : List Request) :
    ∀ j ∈ runLedger store reqs,
      j.input_files ≠ [] ∧
      ((j.status = "completed" ∧ j.output_files.isSome = true ∧
          j.status ≠ "failed" ∧ j.status ≠ "processing") ∨
       (j.status = "failed" ∧ (∃ m, j.error_message = some m ∧ m ≠ "") ∧
          j.status ≠ "completed" ∧ j.status ≠ "processing") ∨
       (j.status = "processing" ∧ j.status ≠ "completed" ∧ j.status ≠ "failed")) := by
  intro j hj
  have h := runLedger_inv store reqs j hj
  unfold jobInvariantAmended at h
  simp only [Bool.and_eq_true, Bool.or_eq_true, decide_eq_true_eq] at h
  obtain ⟨h1, h2⟩ := h
  refine ⟨h1, ?_⟩
  rcases h2 with (h2a | h2b) | h2c
  · obtain ⟨hs, ho⟩ := h2a
    exact Or.inl ⟨hs, ho, by rw [hs]; decide, by rw [hs]; decide⟩
  · obtain ⟨hs, he⟩ := h2b
    refine Or.inr (Or.inl ⟨hs, ?_, by rw [hs]; decide, by rw [hs]; decide⟩)
    cases hm : j.error_message with
    | none =>
        rw [hm] at he
        cases he
    | some m =>
        rw [hm] at he
        exact ⟨m, rfl, of_decide_eq_true he⟩
  · exact Or.inr (Or.inr ⟨h2c, by rw [h2c]; decide, by rw [h2c]; decide⟩)

theorem claim_C9_amended_witness :
    (Job.mk 1 7 "merge" ["a.pdf"] "completed" Option.none
        (some ["merged_T.pdf"])).input_files ≠ [] ∧
    (((Job.mk 1 7 "merge" ["a.pdf"] "completed" Option.none
          (some ["merged_T.pdf"])).status = "completed" ∧
        (Job.mk 1 7 "merge" ["a.pdf"] "completed" Option.none
          (some ["merged_T.pdf"])).output_files.isSome = true ∧
        (Job.mk 1 7 "merge" ["a.pdf"] "completed" Option.none
          (some ["merged_T.pdf"])).status ≠ "failed" ∧
        (Job.mk 1 7 "merge" ["a.pdf"] "completed" Option.none
          (some ["merged_T.pdf"])).status ≠ "processing") ∨
     ((Job.mk 1 7 "merge" ["a.pdf"] "completed" Option.none
          (some ["merged_T.pdf"])).status = "failed" ∧
        (∃ m, (Job.mk 1 7 "merge" ["a.pdf"] "completed" Option.none
          (some ["merged_T.pdf"])).error_message = some m ∧ m ≠ "") ∧
        (Job.mk 1 7 "merge" ["a.pdf"] "completed" Option.none
          (some ["merged_T.pdf"])).status ≠ "completed" ∧
        (Job.mk 1 7 "merge" ["a.pdf"] "completed" Option.none
          (some ["merged_T.pdf"])).status ≠ "processing") ∨
     ((Job.mk 1 7 "merge" ["a.pdf"] "completed" Option.none
          (some ["merged_T.pdf"])).status = "processing" ∧
        (Job.mk 1 7 "merge" ["a.pdf"] "completed" Option.none
          (some ["merged_T.pdf"])).status ≠ "completed" ∧
        (Job.mk 1 7 "merge" ["a.pdf"] "completed" Option.none
          (some ["merged_T.pdf"])).status ≠ "failed")) :=
  claim_C9_amended [("a.pdf", [1])]
    [Request.mergeReq 7 [("files", PyVal.list [PyVal.str "a.pdf"])] "T"]
    (Job.mk 1 7 "merge" ["a.pdf"] "completed" Option.none (some ["merged_T.pdf"]))
    (by decide)

/-- C1 fails as stated: on a one-page document, the valid range
`{start: 2, end: 3}` produces zero outputs, not `end - start + 1 = 2` (nor
the clamped `min(end, pages) - start + 1 = 0 - ... `: the whole range is
dropped because `start` already exceeds the page count). -/
theorem claim_C1_counterexample :
    PDFProcessor.split_pdf [("a.pdf", [0])] "a.pdf" "T"
        (some (PDFProcessor.PageRange.mk (some 2) (some 3)))
      = Except.ok [] ∧
    (([] : List Artifact).length : Int) ≠ 3 - 2 + 1 :=
  ⟨rfl, by decide⟩

/-- C1 amended: for positive `start ≤ end` on an existing file, `split`
produces exactly `min(end, pages) - start + 1` outputs (so `end - start + 1`
when `end ≤ pages`, the clamped count when `end` overshoots, and none when
`start` itself exceeds the page count); each output holds the single
corresponding source page, ordered ascending, named with the 1-based source
page number; the range is equivalent to its clamped form; and with no range
`split` yields one single-page output per source page. -/
theorem claim_C1_amended (store : FileStore) (fn ts : String) (doc : PdfDoc) (s e : Int)
    (hdoc : store.lookup fn = some doc) (hs : 1 ≤ s) (hse : s ≤ e) :
    (∃ arts : List Artifact,
      PDFProcessor.split_pdf store fn ts (some (PDFProcessor.PageRange.mk (some s) (some e)))
        = Except.ok arts ∧
      arts.length = (min e (doc.length : Int) - s + 1).toNat ∧
      (e ≤ (doc.length : Int) → (arts.length : Int) = e - s + 1) ∧
      ((doc.length : Int) < s → arts = []) ∧
      (∀ a ∈ arts, a.doc.length = 1) ∧
      (∀ i : Nat, (hi : i < arts.length) →
        ∃ pg, doc[(s - 1 + (i : Int)).toNat]? = some pg ∧
          arts[i]
            = Artifact.mk (PDFProcessor.splitName (splitextBase fn) (s - 1 + (i : Int)) ts)
                [pg])) ∧
    PDFProcessor.split_pdf store fn ts (some (PDFProcessor.PageRange.mk (some s) (some e)))
      = PDFProcessor.split_pdf store fn ts
          (some (PDFProcessor.PageRange.mk (some s) (some (min e (doc.length : Int))))) ∧
    (∃ artsAll : List Artifact,
      PDFProcessor.split_pdf store fn ts Option.none = Except.ok artsAll ∧
      artsAll.length = doc.length ∧
      (∀ a ∈ artsAll, a.doc.length = 1) ∧
      (∀ i : Nat, (hi : i < artsAll.length) →
        ∃ pg, doc[i]? = some pg ∧
          artsAll[i]
            = Artifact.mk (PDFProcessor.splitName (splitextBase fn) (i : Int) ts) [pg])) := by
  have hsome := split_pdf_some_eq store fn ts doc s e hdoc hs
  have hnone := split_pdf_none_eq store fn ts doc hdoc
  refine ⟨⟨_, hsome, ?_, ?_, ?_, ?_, ?_⟩, ?_, ⟨_, hnone, ?_, ?_, ?_⟩⟩
  · rw [List.length_map, pyRange_length]
    congr 1
    omega
  · intro hle
    rw [List.length_map, pyRange_length]
    omega
  · intro hlt
    apply List.eq_nil_of_length_eq_zero
    rw [List.length_map, pyRange_length]
    omega
  · intro a ha
    rcases List.mem_map.mp ha with ⟨p, _, rfl⟩
    rfl
  · intro i hi
    have hi' : i < (pyRange (s - 1) (min e (doc.length : Int))).length := by
      simpa using hi
    have hlen : i < (min e (doc.length : Int) - (s - 1)).toNat := by
      rwa [pyRange_length] at hi'
    have hbound : (s - 1 + (i : Int)).toNat < doc.length := by omega
    refine ⟨doc[(s - 1 + (i : Int)).toNat], List.getElem?_eq_getElem hbound, ?_⟩
    rw [List.getElem_map, pyRange_getElem _ _ i hi']
    rw [List.getD_eq_getElem doc 0 hbound]
  · rw [hsome, split_pdf_some_eq store fn ts doc s (min e (doc.length : Int)) hdoc hs]
    rw [min_assoc, min_self]
  · rw [List.length_map, pyRange_length]
    omega
  · intro a ha
    rcases List.mem_map.mp ha with ⟨p, _, rfl⟩
    rfl
  · intro i hi
    have hi' : i < (pyRange 0 (doc.length : Int)).length := by
      simpa using hi
    have hlen : i < ((doc.length : Int) - 0).toNat := by
      rwa [pyRange_length] at hi'
    have hbound : i < doc.length := by omega
    have hcast : ((i : Int)).toNat = i := by omega
    refine ⟨doc[i], List.getElem?_eq_getElem hbound, ?_⟩
    rw [List.getElem_map, pyRange_getElem _ _ i hi', zero_add, hcast]
    rw [List.getD_eq_getElem doc 0 hbound]

theorem claim_C1_amended_witness :
    ∃ arts : List Artifact,
      PDFProcessor.split_pdf [("a.pdf", [10, 20, 30])] "a.pdf" "T"
          (some (PDFProcessor.PageRange.mk (some 2) (some 3))) = Except.ok arts ∧
      arts.length = 2 :=
  match claim_C1_amended [("a.pdf", [10, 20, 30])] "a.pdf" "T" [10, 20, 30] 2 3 rfl (by decide)
      (by decide) with
  | ⟨⟨arts, h1, h2, _⟩, _⟩ => ⟨arts, h1, by rw [h2]; decide⟩

theorem claim_C7_witness :
    ∃ r : PDFProcessor.CompressResult,
      PDFProcessor.compress_pdf [("a.pdf", [1])] (fun _ => 4) (fun _ _ => 8) "a.pdf" "T" "medium"
        = Except.ok r ∧
      r.compression_ratio
        = (((4 : Nat) : ℚ) - ((8 : Nat) : ℚ)) / ((4 : Nat) : ℚ) * 100 ∧
      (((4 : Nat) : ℚ) < ((8 : Nat) : ℚ) → r.compression_ratio < 0) ∧
      (((8 : Nat) : ℚ) = ((4 : Nat) : ℚ) → r.compression_ratio = 0) :=
  claim_C7 [("a.pdf", [1])] (fun _ => 4) (fun _ _ => 8) "a.pdf" "T" "medium" [1] rfl (by decide)

end PdfToolkit
